import Mathlib

/-!
Shallow embedding of `mangabaka_talker/mangabaka.py` (the MangaBaka
metadata-source plugin).  Raw API records are `MBSeries` (a Python
`TypedDict` with `total=False`: every field may be absent, modelled with an
outer `Option`; fields whose declared type is `X | None` carry a second,
inner `Option` for a present-but-null value).  Dictionary subscript access
`d["k"]` raises `KeyError` on an absent key and is modelled by `getKey`;
`.get` access is the plain `Option`.  Stateful pieces (the result cache and
the request counter) are passed explicitly; the network is a parameter
giving the response to each request in order.
-/

set_option autoImplicit false

namespace MangaBaka

/-- Python exceptions surfaced by the talker: `TalkerNetworkError` and
`TalkerDataError` (from comictalker), and dictionary `KeyError`. -/
inductive PyErr where
  | talkerNetwork (code : Nat) (msg : String)
  | talkerData (code : Nat) (msg : String)
  | keyError (key : String)
deriving DecidableEq

instance {ε α : Type} [DecidableEq ε] [DecidableEq α] : DecidableEq (Except ε α)
  | Except.error a, Except.error b =>
    if h : a = b then isTrue (by rw [h])
    else isFalse (by intro hh; cases hh; exact h rfl)
  | Except.error _, Except.ok _ => isFalse (by intro h; cases h)
  | Except.ok _, Except.error _ => isFalse (by intro h; cases h)
  | Except.ok a, Except.ok b =>
    if h : a = b then isTrue (by rw [h])
    else isFalse (by intro hh; cases hh; exact h rfl)

/-- Subscript access `d["k"]` on a possibly-absent TypedDict field: raises
`KeyError` when the field is absent. -/
def getKey {α : Type} (v : Option α) (k : String) : Except PyErr α :=
  match v with
  | some x => Except.ok x
  | none => Except.error (PyErr.keyError k)

/-- `MBImageURL` (a total TypedDict: all fields required). -/
structure MBImageURL where
  raw : String
  default : String
  small : String
deriving DecidableEq

/-- `MBPublisher` (a total TypedDict: all fields required). -/
structure MBPublisher where
  name : String
  type : String
  note : String
deriving DecidableEq

/-- One entry of a `secondary_titles` value: a `dict[str, str]` from which
the code reads key `"title"`. -/
structure MBSecondaryTitle where
  title : Option String
deriving DecidableEq

/-- `MBSeries` (`TypedDict, total=False`): every field may be absent (outer
`Option`); fields declared `X | None` in the source, and fields the code
explicitly checks against `None`, carry an inner `Option` for a
present-but-null value.  Only the fields the embedded code reads are
modelled. -/
structure MBSeries where
  id : Option Nat
  state : Option String
  title : Option String
  native_title : Option String
  romanized_title : Option String
  secondary_titles : Option (List (String × Option (List MBSecondaryTitle)))
  cover : Option MBImageURL
  authors : Option (Option (List String))
  artists : Option (Option (List String))
  description : Option String
  year : Option Int
  status : Option String
  content_rating : Option String
  type : Option String
  rating : Option (Option Int)
  final_volume : Option (Option String)
  final_chapter : Option (Option String)
  total_chapters : Option (Option String)
  links : Option (Option (List String))
  publishers : Option (Option (List MBPublisher))
  genres : Option (Option (List String))
  tags : Option (Option (List String))
deriving DecidableEq

/-- `MBPagination` (a total TypedDict). -/
structure MBPagination where
  count : Nat
  page : Nat
  limit : Nat
  next : Option String
  previous : Option String
deriving DecidableEq

/-- `MBResult` (`TypedDict, total=False`); the `data` payload is a list of
records for the search endpoint and a single record for the series
endpoint, so the response type is parametrized by the payload type. -/
structure MBResult (α : Type) where
  status : Option Nat
  message : Option String
  pagination : Option MBPagination
  data : Option α
deriving DecidableEq

/-- Outcome of one HTTP GET as seen inside `_get_url_content`: a 200 whose
body parses as JSON (`ok`), a 200 whose body is not valid JSON, any other
status code, a connection timeout, or another transport exception. -/
inductive HttpResp (α : Type) where
  | ok (body : α)
  | okBadJson
  | status (code : Nat)
  | timeout
  | reqException (msg : String)
deriving DecidableEq

/-- Result of a `_get_url_content` call: the returned body or the raised
error, together with the number of GET requests issued (the increments of
`total_requests_made`) and the total seconds slept in 429 cool-downs. -/
structure UrlOut (α : Type) where
  result : Except PyErr α
  requests : Nat
  slept : Nat
deriving DecidableEq

/-- One pass of the retry loop of `_get_url_content` (lines 385-428).
`fuel` is the number of loop iterations left (`for tries in range(1, 5)`
makes at most 4), `i` the number of requests already made inside this call
(so the current attempt is `tries = i + 1` and consumes `resps i`), `lc`
the accumulated `limit_counter` and `sl` the seconds slept so far.
Exhausting the loop falls through to the final
`raise TalkerNetworkError(..., 5, "Unknown error occurred")` (line 430). -/
def get_url_loop {α : Type} (resps : Nat → HttpResp α) :
    Nat → Nat → Nat → Nat → UrlOut α
  | 0, i, _, sl =>
      ⟨Except.error (PyErr.talkerNetwork 5 "Unknown error occurred"), i, sl⟩
  | fuel + 1, i, lc, sl =>
    match resps i with
    | HttpResp.ok body => ⟨Except.ok body, i + 1, sl⟩
    | HttpResp.okBadJson =>
        ⟨Except.error (PyErr.talkerData 2 "ComicVine did not provide json"), i + 1, sl⟩
    | HttpResp.status c =>
        if c = 500 ∨ c = 502 ∨ c = 503 then
          get_url_loop resps fuel (i + 1) lc sl
        else if c = 429 then
          if lc + 1 > 3 then
            ⟨Except.error (PyErr.talkerNetwork 3 "Rate Limit Error"), i + 1, sl + 10⟩
          else
            get_url_loop resps fuel (i + 1) (lc + 1) (sl + 10)
        else
          ⟨Except.error (PyErr.talkerNetwork 5 "Unknown error occurred"), i + 1, sl⟩
    | HttpResp.timeout =>
        if i + 1 > 3 then ⟨Except.error (PyErr.talkerNetwork 4 ""), i + 1, sl⟩
        else get_url_loop resps fuel (i + 1) lc sl
    | HttpResp.reqException m => ⟨Except.error (PyErr.talkerNetwork 0 m), i + 1, sl⟩

/-- `_get_url_content` (lines 381-430): the bounded retry loop, started
with 4 attempts of fuel and zeroed counters. -/
def get_url_content {α : Type} (resps : Nat → HttpResp α) : UrlOut α :=
  get_url_loop resps 4 0 0 0

/-- `_get_mb_content` (lines 373-379): run `_get_url_content`, then reject
any body whose application-level `status` field differs from 200 with
`TalkerNetworkError(name, 0, f"<status>: <message>")`.  Both fields are
subscript accesses on a `total=False` TypedDict. -/
def get_mb_content {α : Type} (resps : Nat → HttpResp (MBResult α)) :
    UrlOut (MBResult α) :=
  let u := get_url_content resps
  match u.result with
  | Except.error _ => u
  | Except.ok body =>
    match getKey body.status "status" with
    | Except.error e => ⟨Except.error e, u.requests, u.slept⟩
    | Except.ok st =>
      if st ≠ 200 then
        match getKey body.message "message" with
        | Except.error e => ⟨Except.error e, u.requests, u.slept⟩
        | Except.ok msg =>
          ⟨Except.error (PyErr.talkerNetwork 0 (toString st ++ ": " ++ msg)),
            u.requests, u.slept⟩
      else u

/-- The ordered content-rating scale `MBRATING` (line 47). -/
def MBRATING : List String := ["safe", "suggestive", "erotica", "pornographic"]

/-- The talker settings consumed by the embedded code (fields of
`MangaBakaTalker` set in `parse_settings`). -/
structure Settings where
  use_series_start_as_volume : Bool
  use_original_publisher : Bool
  filter_dojin : Bool
  filter_type : String
  age_filter : String
deriving DecidableEq

/-- `parse_settings` line 222: the accepted ratings are the prefix of
`MBRATING` up to and including the configured filter (the setting always
comes from `choices=MBRATING`, so the index is found). -/
def age_filter_range (cfg : Settings) : List String :=
  MBRATING.take (MBRATING.indexOf cfg.age_filter + 1)

/-- `_filter_nsfw` (lines 488-494): keep records whose `content_rating` is
in the accepted range; the subscript access raises on an absent field. -/
def filter_nsfw (cfg : Settings) : List MBSeries → Except PyErr (List MBSeries)
  | [] => Except.ok []
  | s :: t => do
    let cr ← getKey s.content_rating "content_rating"
    let rest ← filter_nsfw cfg t
    if cr ∈ age_filter_range cfg then Except.ok (s :: rest) else Except.ok rest

/-- `_filter_dojin` (lines 496-502): keep records whose genre list is
present, non-null and does not contain `"doujinshi"`. -/
def filter_dojin : List MBSeries → Except PyErr (List MBSeries)
  | [] => Except.ok []
  | s :: t => do
    let g ← getKey s.genres "genres"
    let rest ← filter_dojin t
    match g with
    | some gl => if "doujinshi" ∈ gl then Except.ok rest else Except.ok (s :: rest)
    | none => Except.ok rest

/-- `_filter_type` (lines 504-510): keep records whose work type equals the
configured filter exactly. -/
def filter_type (cfg : Settings) : List MBSeries → Except PyErr (List MBSeries)
  | [] => Except.ok []
  | s :: t => do
    let ty ← getKey s.type "type"
    let rest ← filter_type cfg t
    if cfg.filter_type = ty then Except.ok (s :: rest) else Except.ok rest

/-- `_filter_publishers` (lines 475-486): `None` stays `None`; otherwise
pick original or English publishers and join the names with `", "`. -/
def filter_publishers (cfg : Settings) (publishers : Option (List MBPublisher)) :
    Option String :=
  match publishers with
  | none => none
  | some pubs =>
    let publisher_list := pubs.filterMap (fun pub =>
      if cfg.use_original_publisher then
        if pub.type = "Original" then some pub.name else none
      else
        if pub.type = "English" then some pub.name else none)
    some (String.intercalate ", " publisher_list)

/-- Titles of one non-null `secondary_titles` value; each entry is a
`dict` whose `"title"` key is read by subscript. -/
def sec_title_names : List MBSecondaryTitle → Except PyErr (Finset String)
  | [] => Except.ok ∅
  | a :: t => do
    let ttl ← getKey a.title "title"
    let rest ← sec_title_names t
    Except.ok (insert ttl rest)

/-- `_format_secondary_titles` (lines 439-446): collect the alias titles of
every non-null language entry into a set. -/
def format_secondary_titles :
    List (String × Option (List MBSecondaryTitle)) → Except PyErr (Finset String)
  | [] => Except.ok ∅
  | (_, v) :: t =>
    match v with
    | none => format_secondary_titles t
    | some l => do
      let names ← sec_title_names l
      let rest ← format_secondary_titles t
      Except.ok (names ∪ rest)

/-- Host-schema series projection (`comicapi.genericmetadata.ComicSeries`),
restricted to the constructor arguments `_format_series` passes. -/
structure ComicSeries where
  aliases : Finset String
  count_of_issues : Option String
  description : String
  id : String
  image_url : Option String
  name : String
  publisher : Option String
  start_year : Option Int
  count_of_volumes : Option String
  format : String
deriving DecidableEq

/-- `_format_series` (lines 448-473).  Subscript accesses happen in source
order: `secondary_titles`, `publishers`, then inside the constructor call
`id`, `cover`, `title`, `type`.  `utils.xlate_int` on an `int` is the
integer itself; the `if series.get("year"):` guard is Python truthiness, so
a year of 0 leaves `start_year` as `None`. -/
def format_series (cfg : Settings) (series : MBSeries) : Except PyErr ComicSeries := do
  let aliases0 : Finset String :=
    match series.native_title with
    | some nt => {nt}
    | none => ∅
  let aliases1 : Finset String :=
    match series.romanized_title with
    | some rt => insert rt aliases0
    | none => aliases0
  let st ← getKey series.secondary_titles "secondary_titles"
  let sec ← format_secondary_titles st
  let aliases := aliases1 ∪ sec
  let start_year : Option Int :=
    match series.year with
    | some y => if y ≠ 0 then some y else none
    | none => none
  let pubs ← getKey series.publishers "publishers"
  let publisher := filter_publishers cfg pubs
  let i ← getKey series.id "id"
  let cov ← getKey series.cover "cover"
  let ttl ← getKey series.title "title"
  let ty ← getKey series.type "type"
  Except.ok ⟨aliases, series.total_chapters.join, series.description.getD "",
    toString i, some cov.default, ttl, publisher, start_year,
    series.final_volume.join, ty⟩

/-- `_format_search_results` (lines 432-437): format every record in
order; the first raised error aborts the whole call. -/
def format_search_results (cfg : Settings) :
    List MBSeries → Except PyErr (List ComicSeries)
  | [] => Except.ok []
  | r :: t => do
    let f ← format_series cfg r
    let rest ← format_search_results cfg t
    Except.ok (f :: rest)

/-- One cached row (`comictalker.comiccacher.Series`); the serialized JSON
round-trip `json.dumps` / `json.loads` is modelled as the identity, so the
stored payload is the raw record itself. -/
structure CCSeries where
  id : String
  data : MBSeries
deriving DecidableEq

/-- The external cache store, modelled after the contract of
`comictalker.comiccacher.ComicCacher` (an external collaborator; spec §6):
search rows keyed by query string, series rows keyed by series id, each
with a `complete` flag. -/
structure Cache where
  search_results : List (String × List CCSeries × Bool)
  series_info : List (String × CCSeries × Bool)
deriving DecidableEq

/-- Cache contract `get_search_results(provider, query)`: the rows stored
for the query, each paired with the completeness flag. -/
def get_search_results (c : Cache) (q : String) : List (CCSeries × Bool) :=
  match c.search_results.find? (fun e => e.1 == q) with
  | some e => e.2.1.map (fun s => (s, e.2.2))
  | none => []

/-- Cache contract `add_search_results(provider, query, records, complete)`:
replace the stored rows for the query. -/
def add_search_results (c : Cache) (q : String) (rs : List CCSeries)
    (complete : Bool) : Cache :=
  ⟨(q, rs, complete) :: c.search_results.filter (fun e => e.1 != q), c.series_info⟩

/-- Cache contract `get_series_info(id, provider)`. -/
def get_series_info (c : Cache) (i : String) : Option (CCSeries × Bool) :=
  (c.series_info.find? (fun e => e.1 == i)).map (fun e => (e.2.1, e.2.2))

/-- Cache contract `add_series_info(provider, record, complete)`. -/
def add_series_info (c : Cache) (s : CCSeries) (complete : Bool) : Cache :=
  ⟨c.search_results, (s.id, s, complete) :: c.series_info.filter (fun e => e.1 != s.id)⟩

/-- The early-stop test of the pagination loop (lines 322-324):
`any(not utils.titles_match(search_series_name, manga["title"], thresh)
for manga in mb_data)`.  `utils.titles_match` (comicapi, thefuzz fuzzy
similarity) is an external collaborator abstracted as the parameter `tm`;
the generator short-circuits on the first below-threshold record, and
`manga["title"]` is a subscript access. -/
def stop_searching (tm : String → String → Nat → Bool) (name : String)
    (thresh : Nat) : List MBSeries → Except PyErr Bool
  | [] => Except.ok false
  | m :: t => do
    let ttl ← getKey m.title "title"
    if ¬ tm name ttl thresh then Except.ok true
    else stop_searching tm name thresh t

/-- The list-comprehension argument of the cache write (line 337):
`[CCSeries(id=x["id"], data=json.dumps(x).encode("utf-8")) for x in
search_results]`; `x["id"]` is a subscript access evaluated left to
right. -/
def mk_cc_list : List MBSeries → Except PyErr (List CCSeries)
  | [] => Except.ok []
  | x :: t =>
    match getKey x.id "id" with
    | Except.error e => Except.error e
    | Except.ok i =>
      match mk_cc_list t with
      | Except.error e => Except.error e
      | Except.ok rest => Except.ok (⟨toString i, x⟩ :: rest)

/-- Result of one `search_for_series` call: the returned list or raised
error, the cache afterwards, and the number of `_get_mb_content` page
requests issued (each issues at least one HTTP GET, so `calls = 0` is
exactly "no network request, counter unchanged"). -/
structure SearchOutcome where
  result : Except PyErr (List ComicSeries)
  cache : Cache
  calls : Nat
deriving DecidableEq

/-- The filter pipeline of `search_for_series`, applied in fixed order to
both cache-loaded (lines 289-294) and freshly fetched (lines 341-346)
record sets: content rating always, type when configured non-empty, dojin
when enabled. -/
def filter_pipeline (cfg : Settings) (rs : List MBSeries) :
    Except PyErr (List ComicSeries) := do
  let l1 ← filter_nsfw cfg rs
  let l2 ← if cfg.filter_type ≠ "" then filter_type cfg l1 else Except.ok l1
  let l3 ← if cfg.filter_dojin then filter_dojin l2 else Except.ok l2
  format_search_results cfg l3

/-- The tail of the network search path (lines 333-350): write the full
accumulated pre-filter record set to the cache keyed by the raw query and
marked complete, then filter and format.  A `KeyError` while building the
cache rows aborts before the write. -/
def post_loop (cfg : Settings) (cache : Cache) (name : String)
    (search_results : List MBSeries) (calls : Nat) : SearchOutcome :=
  match mk_cc_list search_results with
  | Except.error e => ⟨Except.error e, cache, calls⟩
  | Except.ok l =>
    ⟨filter_pipeline cfg search_results, add_search_results cache name l true, calls⟩

/-- The pagination loop of `search_for_series` (lines 317-331).  `api i` is
the outcome of the `(i+1)`-th `_get_mb_content` call of this search;
`calls` counts the calls already made, `resp` and `mb_data` are the current
response and its record list, `acc` the accumulated results.  The loop is
governed only by the server-reported `pagination.page` field, so `fuel`
bounds the modelled iterations; `none` means the bound was exhausted before
the loop exited. -/
def search_loop (api : Nat → Except PyErr (MBResult (List MBSeries)))
    (literal : Bool) (tm : String → String → Nat → Bool) (name : String)
    (thresh : Nat) :
    Nat → MBResult (List MBSeries) → List MBSeries → List MBSeries → Nat →
    Option (Except PyErr (List MBSeries) × Nat)
  | 0, _, _, _, _ => none
  | fuel + 1, resp, mb_data, acc, calls =>
    match getKey resp.pagination "pagination" with
    | Except.error e => some (Except.error e, calls)
    | Except.ok pg =>
      match pg.next with
      | none => some (Except.ok acc, calls)
      | some _ =>
        if pg.page < 6 then
          let fetch : Option (Except PyErr (List MBSeries) × Nat) :=
            match api calls with
            | Except.error e => some (Except.error e, calls + 1)
            | Except.ok resp' =>
              match getKey resp'.data "data" with
              | Except.error e => some (Except.error e, calls + 1)
              | Except.ok d =>
                search_loop api literal tm name thresh fuel resp' d (acc ++ d) (calls + 1)
          if literal then fetch
          else
            match stop_searching tm name thresh mb_data with
            | Except.error e => some (Except.error e, calls)
            | Except.ok true => some (Except.ok acc, calls)
            | Except.ok false => fetch
        else some (Except.ok acc, calls)

/-- The network path of `search_for_series` (lines 298-350): initial page
request, `mb_response["data"]` subscript, the eager
`logger.debug(f"... {mb_response['pagination']['limit'] ...}")` subscript
on `pagination`, the pagination loop, then `post_loop`. -/
def network_search (cfg : Settings) (cache : Cache)
    (api : Nat → Except PyErr (MBResult (List MBSeries)))
    (tm : String → String → Nat → Bool) (name : String) (literal : Bool)
    (thresh : Nat) (fuel : Nat) : Option SearchOutcome :=
  match api 0 with
  | Except.error e => some ⟨Except.error e, cache, 1⟩
  | Except.ok resp0 =>
    match getKey resp0.data "data" with
    | Except.error e => some ⟨Except.error e, cache, 1⟩
    | Except.ok d0 =>
      match getKey resp0.pagination "pagination" with
      | Except.error e => some ⟨Except.error e, cache, 1⟩
      | Except.ok _ =>
        match search_loop api literal tm name thresh fuel resp0 d0 d0 1 with
        | none => none
        | some (Except.error e, calls) => some ⟨Except.error e, cache, calls⟩
        | some (Except.ok acc, calls) => some (post_loop cfg cache name acc calls)

/-- `search_for_series` (lines 268-350).  When not refreshing and not in
literal mode, a non-empty cache read for the raw query string answers the
call with the filter pipeline applied to the deserialized rows and no
network request; otherwise the network path runs.  `fuel` bounds the
pagination-loop iterations of the model; `none` means the loop did not
exit within `fuel` iterations. -/
def search_for_series (cfg : Settings) (cache : Cache)
    (api : Nat → Except PyErr (MBResult (List MBSeries)))
    (tm : String → String → Nat → Bool) (series_name : String)
    (refresh_cache literal : Bool) (thresh : Nat) (fuel : Nat) :
    Option SearchOutcome :=
  if refresh_cache = false ∧ literal = false then
    let cached := get_search_results cache series_name
    if cached.length > 0 then
      let json_cache := cached.map (fun x => x.1.data)
      some ⟨filter_pipeline cfg json_cache, cache, 0⟩
    else network_search cfg cache api tm series_name literal thresh fuel
  else network_search cfg cache api tm series_name literal thresh fuel

/-- Result of one `_fetch_series` / `fetch_series` call. -/
structure FetchOutcome where
  result : Except PyErr MBSeries
  cache : Cache
  calls : Nat
deriving DecidableEq

/-- `_fetch_series` (lines 515-534): cache-first single-series lookup.  A
cached entry is used only when present with its complete flag set;
otherwise the single-series request runs (its `_get_mb_content` outcome is
the parameter `api`) and the raw record is cached marked complete, keyed by
the stringified series id. -/
def fetch_series_raw (cache : Cache) (api : Except PyErr (MBResult MBSeries))
    (series_id : Nat) : FetchOutcome :=
  match get_series_info cache (toString series_id) with
  | some (cc, true) => ⟨Except.ok cc.data, cache, 0⟩
  | _ =>
    match api with
    | Except.error e => ⟨Except.error e, cache, 1⟩
    | Except.ok resp =>
      match getKey resp.data "data" with
      | Except.error e => ⟨Except.error e, cache, 1⟩
      | Except.ok d =>
        ⟨Except.ok d, add_series_info cache ⟨toString series_id, d⟩ true, 1⟩

/-- Result of the public `fetch_series`. -/
structure FetchSeriesOutcome where
  result : Except PyErr ComicSeries
  cache : Cache
  calls : Nat
deriving DecidableEq

/-- `fetch_series` (lines 512-513): `_format_series(_fetch_series(...))`. -/
def fetch_series (cfg : Settings) (cache : Cache)
    (api : Except PyErr (MBResult MBSeries)) (series_id : Nat) :
    FetchSeriesOutcome :=
  let r := fetch_series_raw cache api series_id
  match r.result with
  | Except.error e => ⟨Except.error e, r.cache, r.calls⟩
  | Except.ok d => ⟨format_series cfg d, r.cache, r.calls⟩

/-- Python `str.capitalize()`: first character upper-cased, the rest
lower-cased. -/
def pyCapitalize (s : String) : String :=
  match s.data with
  | [] => ""
  | c :: rest => String.mk (c.toUpper :: rest.map Char.toLower)

/-- `comicapi.utils.xlate_int` on a `str | None` value, modelled as integer
parsing. -/
def xlate_int_str (s : Option String) : Option Int :=
  s.bind (fun t => t.toInt?)

/-- One credit entry added by `GenericMetadata.add_credit`. -/
structure Credit where
  person : String
  role : String
deriving DecidableEq

/-- `comicapi.genericmetadata.ImageHash`. -/
structure ImageHash where
  url : String
  hash : Nat
  kind : String
deriving DecidableEq

/-- `comicapi.genericmetadata.GenericMetadata`, restricted to the fields
`_map_comic_issue_to_metadata` assigns. -/
structure GenericMetadata where
  data_origin : Option (String × String)
  series_id : Option Nat
  issue_id : Option Nat
  series : Option String
  cover_image : Option ImageHash
  series_aliases : Finset String
  publisher : Option String
  credits : List Credit
  manga : Option String
  genres : Finset String
  tags : Finset String
  maturity_rating : Option String
  count_of_volumes : Option Int
  count_of_issues : Option Int
  year : Option Int
  description : Option String
  web_links : List String
  critical_rating : Option ℚ
  volume : Option Int
deriving DecidableEq

/-- `_map_comic_issue_to_metadata` (lines 551-609).  Subscript accesses in
source order: `id`, `title`, `cover`, `secondary_titles`, `publishers`,
`authors`, `artists`, `type`, `genres`, `tags`, `content_rating`,
`final_volume`, `final_chapter`, `year`, `description`, `links`, `rating`.
External helpers: `utils.xlate` on a present integer is the value,
`utils.xlate_int` parses an integer, `utils.parse_url` is modelled as the
identity (its parse failures are silently skipped by the code and not
modelled), and `rating / 2` is exact rational division. -/
def map_comic_issue_to_metadata (cfg : Settings) (series : MBSeries) :
    Except PyErr GenericMetadata := do
  let i ← getKey series.id "id"
  let ttl ← getKey series.title "title"
  let cov ← getKey series.cover "cover"
  let aliases0 : Finset String :=
    match series.native_title with
    | some nt => {nt}
    | none => ∅
  let aliases1 : Finset String :=
    match series.romanized_title with
    | some rt => insert rt aliases0
    | none => aliases0
  let st ← getKey series.secondary_titles "secondary_titles"
  let sec ← format_secondary_titles st
  let pubs ← getKey series.publishers "publishers"
  let auth ← getKey series.authors "authors"
  let credits0 : List Credit :=
    match auth with
    | some l => l.map (fun a => ⟨a, "Writer"⟩)
    | none => []
  let art ← getKey series.artists "artists"
  let credits1 : List Credit := credits0 ++
    (match art with
     | some l => l.map (fun a => ⟨a, "Artist"⟩)
     | none => [])
  let ty ← getKey series.type "type"
  let gen ← getKey series.genres "genres"
  let tg ← getKey series.tags "tags"
  let cr ← getKey series.content_rating "content_rating"
  let fv ← getKey series.final_volume "final_volume"
  let fc ← getKey series.final_chapter "final_chapter"
  let yr ← getKey series.year "year"
  let desc ← getKey series.description "description"
  let lks ← getKey series.links "links"
  let rt ← getKey series.rating "rating"
  let volume : Option Int :=
    if cfg.use_series_start_as_volume ∧ yr ≠ 0 then some yr else none
  Except.ok ⟨some ("mangabaka", "MangaBaka"), some i, some i, some ttl,
    some ⟨cov.default, 0, ""⟩, aliases1 ∪ sec, filter_publishers cfg pubs,
    credits1, (if ty = "manga" then some "Yes" else none),
    (match gen with | some l => l.toFinset | none => ∅),
    (match tg with | some l => l.toFinset | none => ∅),
    (if cr ≠ "" then some (pyCapitalize cr) else none),
    xlate_int_str fv, xlate_int_str fc, some yr, some desc,
    (match lks with | some l => l | none => []),
    (match rt with | some r => some ((r : ℚ) / 2) | none => none), volume⟩

/-! ### Concrete fixtures used by the witnesses and counterexamples -/

/-- Default-like settings: dojin filter on, no type filter, safe ratings. -/
def cfgX : Settings := ⟨false, false, true, "", "safe"⟩

/-- Alternative filter settings (different rating, type and dojin choices). -/
def cfgY : Settings := ⟨false, true, false, "manga", "erotica"⟩

/-- An empty cache. -/
def cacheEmpty : Cache := ⟨[], []⟩

/-- A record carrying every subscript-accessed field except
`secondary_titles`, which is absent. -/
def series_no_secondary : MBSeries :=
  ⟨some 10023, some "active", some "Naruto", none, none, none,
   some ⟨"r", "d", "s"⟩, some (some []), some (some []), some "", some 1999,
   some "completed", some "safe", some "manga", some (some 8),
   some none, some none, some none, some (some []), some none,
   some (some []), some (some [])⟩

/-- A well-formed 200 body with an empty record list and no pagination. -/
def emptyResult : MBResult (List MBSeries) := ⟨some 200, some "", none, some []⟩

/-- A fuzzy matcher under which no title reaches the threshold. -/
def tmNone : String → String → Nat → Bool := fun _ _ _ => false

/-- A fuzzy matcher under which every title reaches the threshold. -/
def tmAll : String → String → Nat → Bool := fun _ _ _ => true

/-- Three 429 responses, then 200s. -/
def r1test : Nat → HttpResp (MBResult (List MBSeries)) :=
  fun i => if i < 3 then HttpResp.status 429 else HttpResp.ok emptyResult

/-- Nothing but 429 responses. -/
def r2test : Nat → HttpResp (MBResult (List MBSeries)) :=
  fun _ => HttpResp.status 429

/-- A 504 response followed by 200s. -/
def resps504 : Nat → HttpResp (MBResult (List MBSeries)) :=
  fun i => if i = 0 then HttpResp.status 504 else HttpResp.ok emptyResult

/-- Three 502 responses, then 200s. -/
def r502test : Nat → HttpResp (MBResult (List MBSeries)) :=
  fun i => if i < 3 then HttpResp.status 502 else HttpResp.ok emptyResult

/-- A single 404 response, then 200s. -/
def r404test : Nat → HttpResp (MBResult (List MBSeries)) :=
  fun i => if i = 0 then HttpResp.status 404 else HttpResp.ok emptyResult

/-- A single 200 response whose body reports application status 404. -/
def respsBody404 : Nat → HttpResp (MBResult (List MBSeries)) :=
  fun _ => HttpResp.ok ⟨some 404, some "Not Found", none, some []⟩

/-- A single 200 response whose body reports application status 200. -/
def respsBody200 : Nat → HttpResp (MBResult (List MBSeries)) :=
  fun _ => HttpResp.ok emptyResult

/-- A cache holding one complete search row for the query `"Naruto"`. -/
def cacheOneRow : Cache :=
  ⟨[("Naruto", [⟨"10023", series_no_secondary⟩], true)], []⟩

/-- An API whose every response is one page with a next token. -/
def apiOnePage : Nat → Except PyErr (MBResult (List MBSeries)) :=
  fun _ => Except.ok
    ⟨some 200, some "ok", some ⟨100, 1, 50, some "next", none⟩,
     some [series_no_secondary]⟩

/-- An API returning a single page without a next token. -/
def apiNoNext : Nat → Except PyErr (MBResult (List MBSeries)) :=
  fun _ => Except.ok
    ⟨some 200, some "ok", some ⟨1, 1, 50, none, none⟩,
     some [series_no_secondary]⟩

/-- An honestly paginated endless API: the `i`-th response reports page
`i + 1` and always carries a next token. -/
def apiHonest : Nat → Except PyErr (MBResult (List MBSeries)) :=
  fun i => Except.ok ⟨some 200, some "", some ⟨1000, i + 1, 50, some "n", none⟩, some []⟩

/-- A lying API: every response carries a next token but reports
`pagination.page = 1`; the tenth request fails. -/
def apiLying : Nat → Except PyErr (MBResult (List MBSeries)) :=
  fun i =>
    if i < 9 then
      Except.ok ⟨some 200, some "", some ⟨1000, 1, 50, some "n", none⟩, some []⟩
    else Except.error (PyErr.talkerNetwork 0 "boom")

/-- An honestly paginated API whose fourth page request fails. -/
def apiFail4 : Nat → Except PyErr (MBResult (List MBSeries)) :=
  fun i =>
    if i < 3 then
      Except.ok ⟨some 200, some "", some ⟨1000, i + 1, 50, some "n", none⟩, some []⟩
    else Except.error (PyErr.talkerNetwork 0 "boom")

/-- The page body served by `apiFail4` for request `i`. -/
def pageFail4 (i : Nat) : MBResult (List MBSeries) :=
  ⟨some 200, some "", some ⟨1000, i + 1, 50, some "n", none⟩, some []⟩

/-- A single-series 200 response around `series_no_secondary`. -/
def fetchRespOne : MBResult MBSeries :=
  ⟨some 200, some "", none, some series_no_secondary⟩

/-! ### Unfolding lemmas -/

/-- One unfolding of the retry loop. -/
theorem get_url_loop_step {α : Type} (resps : Nat → HttpResp α)
    (fuel i lc sl : Nat) :
    get_url_loop resps (fuel + 1) i lc sl =
      match resps i with
      | HttpResp.ok body => ⟨Except.ok body, i + 1, sl⟩
      | HttpResp.okBadJson =>
          ⟨Except.error (PyErr.talkerData 2 "ComicVine did not provide json"), i + 1, sl⟩
      | HttpResp.status c =>
          if c = 500 ∨ c = 502 ∨ c = 503 then
            get_url_loop resps fuel (i + 1) lc sl
          else if c = 429 then
            if lc + 1 > 3 then
              ⟨Except.error (PyErr.talkerNetwork 3 "Rate Limit Error"), i + 1, sl + 10⟩
            else
              get_url_loop resps fuel (i + 1) (lc + 1) (sl + 10)
          else
            ⟨Except.error (PyErr.talkerNetwork 5 "Unknown error occurred"), i + 1, sl⟩
      | HttpResp.timeout =>
          if i + 1 > 3 then ⟨Except.error (PyErr.talkerNetwork 4 ""), i + 1, sl⟩
          else get_url_loop resps fuel (i + 1) lc sl
      | HttpResp.reqException m =>
          ⟨Except.error (PyErr.talkerNetwork 0 m), i + 1, sl⟩ := rfl

/-- One unfolding of the pagination loop. -/
theorem search_loop_step (api : Nat → Except PyErr (MBResult (List MBSeries)))
    (literal : Bool) (tm : String → String → Nat → Bool) (name : String)
    (thresh : Nat) (fuel : Nat) (resp : MBResult (List MBSeries))
    (mb_data acc : List MBSeries) (calls : Nat) :
    search_loop api literal tm name thresh (fuel + 1) resp mb_data acc calls =
      (match getKey resp.pagination "pagination" with
      | Except.error e => some (Except.error e, calls)
      | Except.ok pg =>
        match pg.next with
        | none => some (Except.ok acc, calls)
        | some _ =>
          if pg.page < 6 then
            let fetch : Option (Except PyErr (List MBSeries) × Nat) :=
              match api calls with
              | Except.error e => some (Except.error e, calls + 1)
              | Except.ok resp' =>
                match getKey resp'.data "data" with
                | Except.error e => some (Except.error e, calls + 1)
                | Except.ok d =>
                  search_loop api literal tm name thresh fuel resp' d (acc ++ d) (calls + 1)
            if literal then fetch
            else
              match stop_searching tm name thresh mb_data with
              | Except.error e => some (Except.error e, calls)
              | Except.ok true => some (Except.ok acc, calls)
              | Except.ok false => fetch
          else some (Except.ok acc, calls)) := rfl

/-! ### C9 -/

/-- C9: the claim says formatting a search result and mapping a fetched
series still succeed when `secondary_titles` is absent, as the data model
allows; on a record with every other accessed field present but
`secondary_titles` missing, both `_format_series` and
`_map_comic_issue_to_metadata` instead raise `KeyError("secondary_titles")`
through their bare subscript access, contradicting the record type's own
`total=False` declaration and the `.get` pattern used for the neighbouring
optional fields. -/
theorem c9_secondary_titles_keyerror :
    format_series cfgX series_no_secondary =
      Except.error (PyErr.keyError "secondary_titles") ∧
    map_comic_issue_to_metadata cfgX series_no_secondary =
      Except.error (PyErr.keyError "secondary_titles") :=
  ⟨rfl, rfl⟩

/-! ### C5 -/

/-- C5: within one `_get_url_content` call, each 429 response triggers a
10-second sleep and a retry; three consecutive 429s followed by a 200
return the 200's parsed body (4 requests, 30 seconds slept), while three
consecutive 429s followed by a fourth raise the terminal rate-limit
`TalkerNetworkError` (code 3, after the fourth cool-down). -/
theorem c5_rate_limit_retry {α : Type} (r1 r2 : Nat → HttpResp α) (body : α)
    (h10 : r1 0 = HttpResp.status 429) (h11 : r1 1 = HttpResp.status 429)
    (h12 : r1 2 = HttpResp.status 429) (h13 : r1 3 = HttpResp.ok body)
    (h20 : r2 0 = HttpResp.status 429) (h21 : r2 1 = HttpResp.status 429)
    (h22 : r2 2 = HttpResp.status 429) (h23 : r2 3 = HttpResp.status 429) :
    get_url_content r1 = ⟨Except.ok body, 4, 30⟩ ∧
    get_url_content r2 =
      ⟨Except.error (PyErr.talkerNetwork 3 "Rate Limit Error"), 4, 40⟩ := by
  constructor
  · show get_url_loop r1 (3 + 1) 0 0 0 = _
    rw [get_url_loop_step, h10]; norm_num
    rw [get_url_loop_step, h11]; norm_num
    rw [get_url_loop_step, h12]; norm_num
    rw [get_url_loop_step, h13]
  · show get_url_loop r2 (3 + 1) 0 0 0 = _
    rw [get_url_loop_step, h20]; norm_num
    rw [get_url_loop_step, h21]; norm_num
    rw [get_url_loop_step, h22]; norm_num
    rw [get_url_loop_step, h23]; norm_num

/-- Witness for C5 on concrete response streams. -/
theorem c5_witness :
    get_url_content r1test = ⟨Except.ok emptyResult, 4, 30⟩ ∧
    get_url_content r2test =
      ⟨Except.error (PyErr.talkerNetwork 3 "Rate Limit Error"), 4, 40⟩ :=
  c5_rate_limit_retry r1test r2test emptyResult (by decide) (by decide)
    (by decide) (by decide) (by decide) (by decide) (by decide) (by decide)

/-! ### C6 -/

/-- C6 counterexample: the server-side 5xx status 504 is terminal on its
first occurrence — a single request, a terminal `TalkerNetworkError`, and
the 200 response that follows is never fetched — contradicting the claim
that every 5xx status is retried up to the 4-attempt bound. -/
theorem c6_counterexample_504_terminal :
    get_url_content resps504 =
      ⟨Except.error (PyErr.talkerNetwork 5 "Unknown error occurred"), 1, 0⟩ := by
  decide

/-- C6 (amended): only the statuses 500, 502 and 503 are retried — three
such failures followed by a 200 still succeed at the 4-attempt bound —
while any status other than 200, 429, 500, 502 and 503 (including other
5xx codes) is terminal on the first response, with exactly one request
issued. -/
theorem c6_retry_statuses {α : Type} (r1 r2 : Nat → HttpResp α) (body : α)
    (c c' : Nat) (hc : c = 500 ∨ c = 502 ∨ c = 503)
    (h10 : r1 0 = HttpResp.status c) (h11 : r1 1 = HttpResp.status c)
    (h12 : r1 2 = HttpResp.status c) (h13 : r1 3 = HttpResp.ok body)
    (hc' : ¬(c' = 500 ∨ c' = 502 ∨ c' = 503)) (h200 : c' ≠ 200)
    (h429 : c' ≠ 429) (h20 : r2 0 = HttpResp.status c') :
    get_url_content r1 = ⟨Except.ok body, 4, 0⟩ ∧
    get_url_content r2 =
      ⟨Except.error (PyErr.talkerNetwork 5 "Unknown error occurred"), 1, 0⟩ := by
  constructor
  · rcases hc with rfl | rfl | rfl <;>
      (show get_url_loop r1 (3 + 1) 0 0 0 = _
       rw [get_url_loop_step, h10]; norm_num
       rw [get_url_loop_step, h11]; norm_num
       rw [get_url_loop_step, h12]; norm_num
       rw [get_url_loop_step, h13])
  · show get_url_loop r2 (3 + 1) 0 0 0 = _
    rw [get_url_loop_step, h20]
    simp only [if_neg hc', if_neg h429]

/-- Witness for the amended C6 on concrete response streams. -/
theorem c6_witness :
    get_url_content r502test = ⟨Except.ok emptyResult, 4, 0⟩ ∧
    get_url_content r404test =
      ⟨Except.error (PyErr.talkerNetwork 5 "Unknown error occurred"), 1, 0⟩ :=
  c6_retry_statuses r502test r404test emptyResult 502 404 (by decide)
    (by decide) (by decide) (by decide) (by decide) (by decide) (by decide)
    (by decide) (by decide)

/-! ### C10 -/

/-- C10: when the HTTP layer returns a 200 whose parsed body carries an
application-level `status` field different from 200, `_get_mb_content`
raises a `TalkerNetworkError` carrying that body status and message; and
conversely every body `_get_mb_content` returns successfully has
`status = 200`, so every record set the orchestrator processes comes from
such a body. -/
theorem c10_body_status_check {α : Type}
    (resps resps2 : Nat → HttpResp (MBResult α))
    (body body2 : MBResult α) (s : Nat) (m : String)
    (h0 : resps 0 = HttpResp.ok body) (hs : body.status = some s)
    (hs200 : s ≠ 200) (hm : body.message = some m)
    (h2 : (get_mb_content resps2).result = Except.ok body2) :
    (get_mb_content resps).result =
      Except.error (PyErr.talkerNetwork 0 (toString s ++ ": " ++ m)) ∧
    body2.status = some 200 := by
  constructor
  · have h1 : get_url_content resps = ⟨Except.ok body, 1, 0⟩ := by
      show get_url_loop resps (3 + 1) 0 0 0 = _
      rw [get_url_loop_step, h0]
    simp only [get_mb_content, h1, getKey, hs, hm, if_pos hs200]
  · rcases hu : (get_url_content resps2).result with e | b
    · simp only [get_mb_content, hu] at h2
      cases h2
    · rcases hb : b.status with _ | st
      · simp only [get_mb_content, hu, getKey, hb] at h2
        cases h2
      · by_cases hst : st = 200
        · subst hst
          have hne : ¬((200 : Nat) ≠ 200) := fun hh => hh rfl
          simp only [get_mb_content, hu, getKey, hb, if_neg hne,
            Except.ok.injEq] at h2
          subst h2
          exact hb
        · rcases hm2 : b.message with _ | msg <;>
            · simp only [get_mb_content, hu, getKey, hb, hm2, if_pos hst] at h2
              cases h2

/-- Witness for C10 on concrete response streams. -/
theorem c10_witness :
    (get_mb_content respsBody404).result =
      Except.error (PyErr.talkerNetwork 0 (toString 404 ++ ": " ++ "Not Found")) ∧
    emptyResult.status = some 200 :=
  c10_body_status_check respsBody404 respsBody200
    ⟨some 404, some "Not Found", none, some []⟩ emptyResult 404 "Not Found"
    (by decide) (by decide) (by decide) (by decide) (by decide)

/-! ### C8 -/

/-- C8: `_fetch_series` on an id absent from the cache makes exactly one
page request and writes the fetched raw record to the cache keyed by the
stringified id and marked complete; a second `fetch_series` call against
the resulting cache makes zero requests and returns the normalization of
the cached record. -/
theorem c8_fetch_cache_roundtrip (cfg : Settings) (cache : Cache)
    (api1 api2 : Except PyErr (MBResult MBSeries)) (sid : Nat)
    (resp : MBResult MBSeries) (d : MBSeries)
    (hmiss : get_series_info cache (toString sid) = none)
    (hapi : api1 = Except.ok resp) (hdata : resp.data = some d) :
    fetch_series cfg cache api1 sid =
      ⟨format_series cfg d, add_series_info cache ⟨toString sid, d⟩ true, 1⟩ ∧
    fetch_series cfg (add_series_info cache ⟨toString sid, d⟩ true) api2 sid =
      ⟨format_series cfg d, add_series_info cache ⟨toString sid, d⟩ true, 0⟩ := by
  constructor
  · simp only [fetch_series, fetch_series_raw, hmiss, hapi, getKey, hdata]
  · have hhit : get_series_info (add_series_info cache ⟨toString sid, d⟩ true)
        (toString sid) = some (⟨toString sid, d⟩, true) := by
      simp [get_series_info, add_series_info, List.find?]
    simp only [fetch_series, fetch_series_raw, hhit]

/-- Witness for C8: one request and a complete cache write on the first
call, zero requests on the second. -/
theorem c8_witness :
    fetch_series cfgX cacheEmpty (Except.ok fetchRespOne) 10023 =
      ⟨format_series cfgX series_no_secondary,
        add_series_info cacheEmpty ⟨toString 10023, series_no_secondary⟩ true,
        1⟩ ∧
    fetch_series cfgX
        (add_series_info cacheEmpty ⟨toString 10023, series_no_secondary⟩ true)
        (Except.error (PyErr.talkerNetwork 0 "no")) 10023 =
      ⟨format_series cfgX series_no_secondary,
        add_series_info cacheEmpty ⟨toString 10023, series_no_secondary⟩ true,
        0⟩ :=
  c8_fetch_cache_roundtrip cfgX cacheEmpty (Except.ok fetchRespOne)
    (Except.error (PyErr.talkerNetwork 0 "no")) 10023 fetchRespOne
    series_no_secondary (by decide) (by decide) (by decide)

/-! ### C4 -/

/-- C4: with refresh off and literal off, a non-empty cache read for the
raw query string answers the call with no page request (`calls = 0`, so no
HTTP GET and an unchanged request counter) and an untouched cache; the
result is the filter pipeline — content rating, then type, then dojin,
then normalization — applied to the deserialized cached rows. -/
theorem c4_cache_hit_no_network (cfg : Settings) (cache : Cache)
    (api : Nat → Except PyErr (MBResult (List MBSeries)))
    (tm : String → String → Nat → Bool) (name : String) (thresh fuel : Nat)
    (rows : List (CCSeries × Bool))
    (hrows : get_search_results cache name = rows) (hne : rows ≠ []) :
    search_for_series cfg cache api tm name false false thresh fuel =
      some ⟨filter_pipeline cfg (rows.map (fun x => x.1.data)), cache, 0⟩ := by
  have hlen : 0 < rows.length := List.length_pos.mpr hne
  simp [search_for_series, hrows, hlen]

/-- Witness for C4 on a one-row cache: zero requests, cache untouched. -/
theorem c4_witness :
    search_for_series cfgX cacheOneRow
        (fun _ => Except.error (PyErr.talkerNetwork 0 "no")) tmAll "Naruto"
        false false 90 6 =
      some ⟨filter_pipeline cfgX
          (([((⟨"10023", series_no_secondary⟩ : CCSeries), true)] :
            List (CCSeries × Bool)).map (fun x => x.1.data)),
        cacheOneRow, 0⟩ :=
  c4_cache_hit_no_network cfgX cacheOneRow
    (fun _ => Except.error (PyErr.talkerNetwork 0 "no")) tmAll "Naruto" 90 6
    [(⟨"10023", series_no_secondary⟩, true)] (by decide) (by decide)

/-! ### C1 -/

/-- C1: in non-literal mode, when some record of the current (first) page
falls below the similarity threshold, the pagination loop stops before
fetching the next page: exactly one page request is made whatever the fuel
and the outcome is the post-loop processing (cache write, filter pipeline,
formatting) of that single page's records. -/
theorem c1_early_stop_halts_pagination (cfg : Settings) (cache : Cache)
    (api : Nat → Except PyErr (MBResult (List MBSeries)))
    (tm : String → String → Nat → Bool) (name : String) (refresh : Bool)
    (thresh fuel : Nat) (resp0 : MBResult (List MBSeries))
    (pg0 : MBPagination) (d0 : List MBSeries)
    (hcache : get_search_results cache name = [])
    (hapi : api 0 = Except.ok resp0)
    (hdata : resp0.data = some d0)
    (hpg : resp0.pagination = some pg0)
    (hstop : stop_searching tm name thresh d0 = Except.ok true) :
    search_for_series cfg cache api tm name refresh false thresh (fuel + 1) =
      some (post_loop cfg cache name d0 1) := by
  have hloop : search_loop api false tm name thresh (fuel + 1) resp0 d0 d0 1 =
      some (Except.ok d0, 1) := by
    rw [search_loop_step]
    simp only [getKey, hpg]
    rcases hn : pg0.next with _ | u
    · rfl
    · by_cases hp : pg0.page < 6
      · rw [if_pos hp]
        simp only [Bool.false_eq_true, if_false, hstop]
      · rw [if_neg hp]
  have hnet : network_search cfg cache api tm name false thresh (fuel + 1) =
      some (post_loop cfg cache name d0 1) := by
    simp only [network_search, hapi, getKey, hdata, hpg, hloop]
  cases refresh
  · simp [search_for_series, hcache, hnet]
  · simp [search_for_series, hnet]

/-- Witness for C1: a page whose single record misses the threshold stops
the search after one request. -/
theorem c1_witness :
    search_for_series cfgX cacheEmpty apiOnePage tmNone "Naruto" false false
        90 (5 + 1) =
      some (post_loop cfgX cacheEmpty "Naruto" [series_no_secondary] 1) :=
  c1_early_stop_halts_pagination cfgX cacheEmpty apiOnePage tmNone "Naruto"
    false 90 5
    ⟨some 200, some "ok", some ⟨100, 1, 50, some "next", none⟩,
      some [series_no_secondary]⟩
    ⟨100, 1, 50, some "next", none⟩ [series_no_secondary]
    (by decide) (by decide) (by decide) (by decide) (by decide)

/-! ### C3 -/

/-- The cache rows built for the write-back carry exactly the accumulated
records, in order. -/
theorem mk_cc_list_data :
    ∀ (rs : List MBSeries) (l : List CCSeries),
      mk_cc_list rs = Except.ok l → l.map CCSeries.data = rs := by
  intro rs
  induction rs with
  | nil =>
    intro l h
    simp only [mk_cc_list] at h
    cases h
    rfl
  | cons x t ih =>
    intro l h
    simp only [mk_cc_list] at h
    rcases hx : x.id with _ | i
    · rw [hx] at h
      simp [getKey] at h
    · rw [hx] at h
      rcases hrest : mk_cc_list t with e | rest
      · rw [hrest] at h
        simp [getKey] at h
      · rw [hrest] at h
        simp only [getKey, Except.ok.injEq] at h
        subst h
        simp [ih rest hrest]

/-- C3: after a successful pagination loop, the cache receives exactly the
full accumulated pre-filter record set, in fetch order, keyed by the raw
query string and marked complete; the written cache value mentions no
filter setting (`cfg` is universally quantified and absent from it), so two
runs differing only in filter settings cache identically. -/
theorem c3_cache_write_prefilter (cfg : Settings) (cache : Cache)
    (api : Nat → Except PyErr (MBResult (List MBSeries)))
    (tm : String → String → Nat → Bool) (name : String)
    (refresh literal : Bool) (thresh fuel : Nat)
    (resp0 : MBResult (List MBSeries)) (pg0 : MBPagination)
    (d0 acc : List MBSeries) (calls : Nat) (l : List CCSeries)
    (hcache : get_search_results cache name = [])
    (hapi : api 0 = Except.ok resp0) (hdata : resp0.data = some d0)
    (hpg : resp0.pagination = some pg0)
    (hloop : search_loop api literal tm name thresh fuel resp0 d0 d0 1 =
      some (Except.ok acc, calls))
    (hcc : mk_cc_list acc = Except.ok l) :
    search_for_series cfg cache api tm name refresh literal thresh fuel =
      some ⟨filter_pipeline cfg acc, add_search_results cache name l true, calls⟩ ∧
    l.map CCSeries.data = acc := by
  constructor
  · have hnet : network_search cfg cache api tm name literal thresh fuel =
        some (post_loop cfg cache name acc calls) := by
      simp only [network_search, hapi, getKey, hdata, hpg, hloop]
    have hpost : post_loop cfg cache name acc calls =
        ⟨filter_pipeline cfg acc, add_search_results cache name l true, calls⟩ := by
      simp only [post_loop, hcc]
    cases refresh <;> cases literal <;>
      simp [search_for_series, hcache, hnet, hpost]
  · exact mk_cc_list_data acc l hcc

/-- Witness for C3 on a one-page search: the raw record is cached complete
under the query key. -/
theorem c3_witness :
    (search_for_series cfgX cacheEmpty apiNoNext tmAll "Naruto" false false
        90 1 =
      some ⟨filter_pipeline cfgX [series_no_secondary],
        add_search_results cacheEmpty "Naruto"
          [⟨"10023", series_no_secondary⟩] true, 1⟩) ∧
    ([(⟨"10023", series_no_secondary⟩ : CCSeries)].map CCSeries.data =
      [series_no_secondary]) :=
  c3_cache_write_prefilter cfgX cacheEmpty apiNoNext tmAll "Naruto" false
    false 90 1
    ⟨some 200, some "ok", some ⟨1, 1, 50, none, none⟩, some [series_no_secondary]⟩
    ⟨1, 1, 50, none, none⟩ [series_no_secondary] [series_no_secondary] 1
    [⟨"10023", series_no_secondary⟩]
    (by decide) (by decide) (by decide) (by decide) (by decide) (by decide)

/-! ### C7 -/

/-- C7: when pages 1-3 succeed and the fourth page request raises, the
whole search call propagates the error, returns no records, and leaves the
cache unchanged — nothing fetched before the failure is returned or
written. -/
theorem c7_page_failure_aborts (cfg : Settings) (cache : Cache)
    (api : Nat → Except PyErr (MBResult (List MBSeries)))
    (tm : String → String → Nat → Bool) (name : String) (refresh : Bool)
    (thresh fuel : Nat) (r1 r2 r3 : MBResult (List MBSeries))
    (p1 p2 p3 : MBPagination) (d1 d2 d3 : List MBSeries)
    (u1 u2 u3 : String) (e : PyErr)
    (ha0 : api 0 = Except.ok r1) (ha1 : api 1 = Except.ok r2)
    (ha2 : api 2 = Except.ok r3) (ha3 : api 3 = Except.error e)
    (hd1 : r1.data = some d1) (hd2 : r2.data = some d2)
    (hd3 : r3.data = some d3)
    (hp1 : r1.pagination = some p1) (hp2 : r2.pagination = some p2)
    (hp3 : r3.pagination = some p3)
    (hn1 : p1.next = some u1) (hn2 : p2.next = some u2)
    (hn3 : p3.next = some u3)
    (hg1 : p1.page < 6) (hg2 : p2.page < 6) (hg3 : p3.page < 6) :
    search_for_series cfg cache api tm name refresh true thresh (fuel + 3) =
      some ⟨Except.error e, cache, 4⟩ := by
  have s1 : search_loop api true tm name thresh (fuel + 3) r1 d1 d1 1 =
      search_loop api true tm name thresh (fuel + 2) r2 d2 (d1 ++ d2) 2 := by
    rw [show fuel + 3 = (fuel + 2) + 1 from rfl, search_loop_step]
    simp [getKey, hp1, hn1, hg1, ha1, hd2]
  have s2 : search_loop api true tm name thresh (fuel + 2) r2 d2 (d1 ++ d2) 2 =
      search_loop api true tm name thresh (fuel + 1) r3 d3 (d1 ++ d2 ++ d3) 3 := by
    rw [show fuel + 2 = (fuel + 1) + 1 from rfl, search_loop_step]
    simp [getKey, hp2, hn2, hg2, ha2, hd3]
  have s3 : search_loop api true tm name thresh (fuel + 1) r3 d3 (d1 ++ d2 ++ d3) 3 =
      some (Except.error e, 4) := by
    rw [search_loop_step]
    simp [getKey, hp3, hn3, hg3, ha3]
  have hnet : network_search cfg cache api tm name true thresh (fuel + 3) =
      some ⟨Except.error e, cache, 4⟩ := by
    simp only [network_search, ha0, getKey, hd1, hp1, s1, s2, s3]
  cases refresh <;> simp [search_for_series, hnet]

/-- Witness for C7: three good pages then a failing request abort the
search with the error, four requests made and an unchanged cache. -/
theorem c7_witness :
    search_for_series cfgX cacheEmpty apiFail4 tmAll "q" false true 90 (0 + 3) =
      some ⟨Except.error (PyErr.talkerNetwork 0 "boom"), cacheEmpty, 4⟩ :=
  c7_page_failure_aborts cfgX cacheEmpty apiFail4 tmAll "q" false 90 0
    (pageFail4 0) (pageFail4 1) (pageFail4 2)
    ⟨1000, 1, 50, some "n", none⟩ ⟨1000, 2, 50, some "n", none⟩
    ⟨1000, 3, 50, some "n", none⟩ [] [] [] "n" "n" "n"
    (PyErr.talkerNetwork 0 "boom")
    (by decide) (by decide) (by decide) (by decide) (by decide) (by decide)
    (by decide) (by decide) (by decide) (by decide) (by decide) (by decide)
    (by decide) (by decide) (by decide) (by decide)

/-! ### C2 -/

/-- The post-loop processing never changes the request count. -/
theorem post_loop_calls (cfg : Settings) (cache : Cache) (name : String)
    (acc : List MBSeries) (c : Nat) :
    (post_loop cfg cache name acc c).calls = c := by
  rcases h : mk_cc_list acc with e | l <;> simp [post_loop, h]

/-- Under honest page reporting, the pagination loop always exits within
the page cap: from any state whose current response reports the number of
calls already made as its page, enough fuel yields an outcome with at most
6 total page requests. -/
theorem search_loop_bound (api : Nat → Except PyErr (MBResult (List MBSeries)))
    (literal : Bool) (tm : String → String → Nat → Bool) (name : String)
    (thresh : Nat)
    (honest : ∀ i resp pg, api i = Except.ok resp →
      resp.pagination = some pg → pg.page = i + 1) :
    ∀ fuel calls resp mb_data acc,
      (∀ pg, resp.pagination = some pg → pg.page = calls) →
      calls ≤ 6 → 7 ≤ fuel + calls →
      ∃ r calls',
        search_loop api literal tm name thresh fuel resp mb_data acc calls =
          some (r, calls') ∧ calls' ≤ 6 := by
  intro fuel
  induction fuel with
  | zero =>
    intro calls _ _ _ _ hc6 h7
    omega
  | succ fuel ih =>
    intro calls resp mb_data acc hpg hc6 _
    rw [search_loop_step]
    rcases hp : resp.pagination with _ | pg
    · exact ⟨_, calls, rfl, hc6⟩
    · simp only [getKey]
      have hpage : pg.page = calls := hpg pg hp
      rcases hn : pg.next with _ | u
      · exact ⟨_, calls, rfl, hc6⟩
      · by_cases hlt : pg.page < 6
        · have hclt : calls < 6 := by omega
          have hfetch : ∃ r calls',
              (match api calls with
               | Except.error e => some (Except.error e, calls + 1)
               | Except.ok resp' =>
                 match getKey resp'.data "data" with
                 | Except.error e => some (Except.error e, calls + 1)
                 | Except.ok d =>
                   search_loop api literal tm name thresh fuel resp' d
                     (acc ++ d) (calls + 1)) = some (r, calls') ∧
                calls' ≤ 6 := by
            rcases ha : api calls with e | resp'
            · exact ⟨_, calls + 1, rfl, by omega⟩
            · rcases hd : resp'.data with _ | d
              · refine ⟨Except.error (PyErr.keyError "data"), calls + 1, ?_,
                  by omega⟩
                simp [getKey, hd]
              · have hrec := ih (calls + 1) resp' d (acc ++ d)
                  (fun pg' hq => honest calls resp' pg' ha hq)
                  (by omega) (by omega)
                obtain ⟨r, c', hone, hle⟩ := hrec
                refine ⟨r, c', ?_, hle⟩
                simpa [getKey, hd] using hone
          cases literal
          · rcases hs : stop_searching tm name thresh mb_data with e2 | b
            · refine ⟨Except.error e2, calls, ?_, hc6⟩
              simp [hlt, hs]
            · cases b
              · obtain ⟨r, c', hM, hle⟩ := hfetch
                refine ⟨r, c', ?_, hle⟩
                simpa [hlt, hs] using hM
              · refine ⟨Except.ok acc, calls, ?_, hc6⟩
                simp [hlt, hs]
          · obtain ⟨r, c', hM, hle⟩ := hfetch
            refine ⟨r, c', ?_, hle⟩
            simpa [hlt] using hM
        · refine ⟨Except.ok acc, calls, ?_, hc6⟩
          simp [hlt]

/-- C2 (amended): provided each response reports its true page number — the
response to the `(i+1)`-th page request carries `pagination.page = i + 1`,
as any correctly paginated server does — `search_for_series` stops within
the hard cap: with fuel at least 6 the modelled loop exits and at most 6
page requests are made. -/
theorem c2_page_cap (cfg : Settings) (cache : Cache)
    (api : Nat → Except PyErr (MBResult (List MBSeries)))
    (tm : String → String → Nat → Bool) (name : String)
    (refresh literal : Bool) (thresh fuel : Nat)
    (honest : ∀ i resp pg, api i = Except.ok resp →
      resp.pagination = some pg → pg.page = i + 1)
    (hfuel : 6 ≤ fuel) :
    ∃ out,
      search_for_series cfg cache api tm name refresh literal thresh fuel =
        some out ∧ out.calls ≤ 6 := by
  have hnet : ∃ out,
      network_search cfg cache api tm name literal thresh fuel = some out ∧
        out.calls ≤ 6 := by
    rcases ha : api 0 with e | resp0
    · exact ⟨⟨Except.error e, cache, 1⟩, by simp [network_search, ha], by norm_num⟩
    · rcases hd : resp0.data with _ | d0
      · exact ⟨⟨Except.error (PyErr.keyError "data"), cache, 1⟩,
          by simp [network_search, ha, getKey, hd], by norm_num⟩
      · rcases hp : resp0.pagination with _ | pg0
        · exact ⟨⟨Except.error (PyErr.keyError "pagination"), cache, 1⟩,
            by simp [network_search, ha, getKey, hd, hp], by norm_num⟩
        · obtain ⟨r, calls', hloop, hc⟩ :=
            search_loop_bound api literal tm name thresh honest fuel 1 resp0
              d0 d0 (fun pg hq => honest 0 resp0 pg ha (hp ▸ hq))
              (by omega) (by omega)
          rcases r with e | acc
          · exact ⟨⟨Except.error e, cache, calls'⟩,
              by simp [network_search, ha, getKey, hd, hp, hloop], hc⟩
          · refine ⟨post_loop cfg cache name acc calls',
              by simp [network_search, ha, getKey, hd, hp, hloop], ?_⟩
            rw [post_loop_calls]
            exact hc
  cases refresh
  · cases literal
    · by_cases hlen : 0 < (get_search_results cache name).length
      · refine ⟨⟨filter_pipeline cfg
            ((get_search_results cache name).map (fun x => x.1.data)),
            cache, 0⟩, ?_, by norm_num⟩
        simp [search_for_series, hlen]
      · obtain ⟨out, ho, hc⟩ := hnet
        refine ⟨out, ?_, hc⟩
        simpa [search_for_series, hlen] using ho
    · obtain ⟨out, ho, hc⟩ := hnet
      refine ⟨out, ?_, hc⟩
      simpa [search_for_series] using ho
  · obtain ⟨out, ho, hc⟩ := hnet
    refine ⟨out, ?_, hc⟩
    simpa [search_for_series] using ho

/-- C2 counterexample: the loop bound reads the server-reported page
number, so a response sequence whose every page carries a non-null next
token but reports `pagination.page = 1` drives the search past the
documented 6-page cap — here ten page requests are issued before the tenth
response's failure stops the call. -/
theorem c2_counterexample_lying_pages :
    search_for_series cfgX cacheEmpty apiLying tmAll "q" true false 90 20 =
      some ⟨Except.error (PyErr.talkerNetwork 0 "boom"), cacheEmpty, 10⟩ := by
  decide

/-- Witness for the amended C2: an honestly paginated endless API is cut
off within the 6-page cap. -/
theorem c2_witness :
    ∃ out,
      search_for_series cfgX cacheEmpty apiHonest tmAll "q" true false 90 6 =
        some out ∧ out.calls ≤ 6 :=
  c2_page_cap cfgX cacheEmpty apiHonest tmAll "q" true false 90 6
    (fun i resp pg h1 h2 => by
      simp only [apiHonest, Except.ok.injEq] at h1
      subst h1
      simp only [Option.some.injEq] at h2
      subst h2
      rfl)
    (le_refl 6)

end MangaBaka
